import Mathlib

/-!
Shallow embedding of the eks-platform-pipeline repository
(src/app.py, src/deployment.py, src/pipeline.py, src/eks/eks.py).

The repository assembles a declarative cloud configuration: an EKS cluster
with three node groups and conditional add-ons (src/eks/eks.py), composed
into a deployable stage (src/deployment.py), instantiated directly and via
a promotion pipeline (src/app.py, src/pipeline.py).

The embedding keeps the source's names and data.  Python keyword arguments
are association lists of (key, value) over a small model of Python values;
the flag tests use Python `is` identity semantics exactly as the source
(`if self.flags[...] is True`).  The one build-time network call (the
load-balancer-controller IAM policy fetch) is an explicit input
`lbPolicy`, as are the two process environment variables read by
pipeline.py/app.py.  Fields of the CDK resources that no claim touches
(IAM role details, security groups, bastion user-data script lines,
helm-chart resource requests) are elided.
-/

/-- Model of the Python values that appear as keyword-argument values in
this code base: booleans, integers and strings. -/
inductive PyVal where
  | bool : Bool → PyVal
  | int : Int → PyVal
  | str : String → PyVal
deriving DecidableEq

/-- Python `v is True`: `True` is a singleton object, so only the boolean
`True` itself passes; truthy non-booleans such as `1` or `"x"` do not.
This is the test used at src/eks/eks.py lines 227 and 230. -/
def pyVal_is_True : PyVal → Bool
  | PyVal.bool b => b
  | _ => false

/-- Python truthiness (`bool(v)`): nonzero integers and nonempty strings
are truthy. -/
def pyTruthy : PyVal → Bool
  | PyVal.bool b => b
  | PyVal.int n => n != 0
  | PyVal.str s => s != ""

/-- Dictionary lookup: `kwargs.get(k)` / `k in kwargs` on the keyword
arguments, modelled on an association list. -/
def lookupKw (kwargs : List (String × PyVal)) (k : String) : Option PyVal :=
  (kwargs.find? (fun p => p.1 == k)).map (fun p => p.2)

-- Flag and parameter name constants, src/eks/eks.py lines 9-15.
def DEPLOY_CLUSTER_AUTOSCALER : String := "deploy_cluster_autoscaler"

def DEPLOY_AWS_LB_CONTROLLER : String := "deploy_alb_controller"

def CLUSTER_NAME : String := "cluster_name"

def ENV : String := "env_name"

-- src/eks/eks.py line 18.
def AWS_LB_CONTROLLER : String := "aws-load-balancer-controller"

/-- `cdk.Environment`: account identifier and region (spec section 3). -/
structure CdkEnvironment where
  account : String
  region : String
deriving DecidableEq

/-- The flags dictionary built by `_extract_flags_from_kwargs`: its keys
are statically the two entries of `flags_names`, so it is a record. -/
structure Flags where
  deploy_cluster_autoscaler : PyVal
  deploy_alb_controller : PyVal
deriving DecidableEq

/-- The params dictionary built by `_extract_params_from_kwargs`: its keys
are statically the two entries of `params_names`. -/
structure Params where
  cluster_name : PyVal
  env_name : PyVal
deriving DecidableEq

/-- `PlatformEKS._extract_flags_from_kwargs` (src/eks/eks.py 61-67):
every flag defaults to `True` and is overridden when present in kwargs. -/
def extract_flags_from_kwargs (kwargs : List (String × PyVal)) : Flags :=
  { deploy_cluster_autoscaler :=
      (lookupKw kwargs DEPLOY_CLUSTER_AUTOSCALER).getD (PyVal.bool true)
  , deploy_alb_controller :=
      (lookupKw kwargs DEPLOY_AWS_LB_CONTROLLER).getD (PyVal.bool true) }

/-- `PlatformEKS._extract_params_from_kwargs` (src/eks/eks.py 52-59):
every parameter defaults to its own name (the string `param`) and is
overridden when present in kwargs. -/
def extract_params_from_kwargs (kwargs : List (String × PyVal)) : Params :=
  { cluster_name := (lookupKw kwargs CLUSTER_NAME).getD (PyVal.str CLUSTER_NAME)
  , env_name := (lookupKw kwargs ENV).getD (PyVal.str ENV) }

/-- `eks.CapacityType`. -/
inductive CapacityType where
  | ON_DEMAND
  | SPOT
deriving DecidableEq

/-- `eks.NodegroupAmiType` (the two used). -/
inductive NodegroupAmiType where
  | AL2_X86_64
  | AL2_ARM_64
deriving DecidableEq

/-- One `add_nodegroup_capacity` call (src/eks/eks.py 159-205). -/
structure Nodegroup where
  construct_id : String
  nodegroup_name : String
  capacity_type : CapacityType
  min_size : Nat
  desired_size : Nat
  max_size : Nat
  ami_type : NodegroupAmiType
  instance_types : List String
  subnet_group_name : String
deriving DecidableEq

/-- The on-demand node group, src/eks/eks.py 159-172. -/
def od_default_nodegroup : Nodegroup :=
  { construct_id := "ODDefaultNodegroup"
  , nodegroup_name := "od-default-ng"
  , capacity_type := CapacityType.ON_DEMAND
  , min_size := 0
  , desired_size := 1
  , max_size := 10
  , ami_type := NodegroupAmiType.AL2_X86_64
  , instance_types := ["m5.large"]
  , subnet_group_name := "Private" }

/-- The spot node group, src/eks/eks.py 174-190. -/
def spot_default_nodegroup : Nodegroup :=
  { construct_id := "SpotDefaultNodegroup"
  , nodegroup_name := "spot-default-ng"
  , capacity_type := CapacityType.SPOT
  , min_size := 0
  , desired_size := 1
  , max_size := 10
  , ami_type := NodegroupAmiType.AL2_X86_64
  , instance_types := ["m5.large", "c5.large", "m4.large", "c4.large"]
  , subnet_group_name := "Private" }

/-- The Graviton node group, src/eks/eks.py 192-205 (note: the source
declares it with `capacity_type=eks.CapacityType.SPOT`). -/
def od_graviton_nodegroup : Nodegroup :=
  { construct_id := "ODGravitonNodegroup"
  , nodegroup_name := "od-graviton-ng"
  , capacity_type := CapacityType.SPOT
  , min_size := 0
  , desired_size := 0
  , max_size := 10
  , ami_type := NodegroupAmiType.AL2_ARM_64
  , instance_types := ["m6g.large"]
  , subnet_group_name := "Private" }

/-- `PlatformEKS._create_nodegroups` (src/eks/eks.py 121-208): the three
node groups, in declaration order. -/
def create_nodegroups : List Nodegroup :=
  [od_default_nodegroup, spot_default_nodegroup, od_graviton_nodegroup]

/-- One add-on declared by `_deploy_addons` and the `_deploy_*` methods.
Each constructor records the identifying data of the add-on together with
the construct ids it was given an explicit `add_dependency` on. -/
inductive Addon where
  | ssmAgent (manifest_id : String)
  | bastion (instance_name : String) (dependsOn : List String)
  | clusterAutoscaler (sa_name : String) (priorities : String)
      (awsRegion : String) (dependsOn : List String)
  | awsLbController (sa_name : String) (region : String)
      (policy_statements : List String) (dependsOn : List String)
deriving DecidableEq

/-- `PlatformEKS._deploy_ssm_agent` (src/eks/eks.py 479-548): the agent
daemon set manifest, construct id "SSMAgentManifest". -/
def deploy_ssm_agent : Addon := Addon.ssmAgent "SSMAgentManifest"

/-- `PlatformEKS._deploy_bastion` (src/eks/eks.py 351-477): the bastion
instance is named `cluster_name + "-bastion"` and carries the explicit
dependency `self.bastion.node.add_dependency(self.ssm_agent_manifest)`
(line 475).  IAM, security-group and user-data details are elided. -/
def deploy_bastion (cluster_name : String) : Addon :=
  Addon.bastion (cluster_name ++ "-bastion") ["SSMAgentManifest"]

/-- The priority-expander ConfigMap data declared at src/eks/eks.py
line 271, verbatim. -/
def CA_PRIORITIES : String := "10: \n  - \n  - od*\n20: \n  - spot*"

/-- `PlatformEKS._deploy_cluster_autoscaler` (src/eks/eks.py 235-313):
service account "cluster-autoscaler", the priority-expander ConfigMap
data, the chart's awsRegion value, and the chart's explicit dependency
`cluster_autoscaler_chart.node.add_dependency(self.ssm_agent_manifest)`
(line 312). -/
def deploy_cluster_autoscaler (region : String) : Addon :=
  Addon.clusterAutoscaler "cluster-autoscaler" CA_PRIORITIES region
    ["SSMAgentManifest"]

/-- `PlatformEKS._deploy_aws_load_balancer_controller` (src/eks/eks.py
315-349): service account named AWS_LB_CONTROLLER (construct id also
"aws-load-balancer-controller"), policy statements taken from the fetched
remote document, and the chart's explicit dependency
`aws_lb_controller_chart.node.add_dependency(aws_lb_controller_service_account)`
(line 348) - on the service account, not on the agent daemon set. -/
def deploy_aws_load_balancer_controller (region : String)
    (lbPolicy : List String) : Addon :=
  Addon.awsLbController AWS_LB_CONTROLLER region lbPolicy
    [AWS_LB_CONTROLLER]

/-- `PlatformEKS._deploy_addons` (src/eks/eks.py 222-233): the agent
daemon set then the bastion unconditionally, then the autoscaler and the
load-balancer controller each guarded by `flags[...] is True`. -/
def deploy_addons (flags : Flags) (env : CdkEnvironment)
    (cluster_name : String) (lbPolicy : List String) : List Addon :=
  [deploy_ssm_agent, deploy_bastion cluster_name]
    ++ (if pyVal_is_True flags.deploy_cluster_autoscaler then
          [deploy_cluster_autoscaler env.region] else [])
    ++ (if pyVal_is_True flags.deploy_alb_controller then
          [deploy_aws_load_balancer_controller env.region lbPolicy] else [])

/-- The configuration declared by one `PlatformEKS` construct. -/
structure EKSConfig where
  cluster_name : String
  default_capacity : Nat
  endpoint_access : String
  version : String
  nodegroups : List Nodegroup
  addons : List Addon
deriving DecidableEq

/-- `PlatformEKS.__init__` (src/eks/eks.py 22-50) with `_create_eks`
(104-119): extracts flags and params from kwargs, names the cluster
`params[CLUSTER_NAME] + "-" + params[ENV]` (a TypeError - `none` here -
unless both parameters are strings), declares zero default capacity,
private endpoint access, the pinned version, the three node groups and
the add-ons. -/
def platformEKS (env : CdkEnvironment) (kwargs : List (String × PyVal))
    (lbPolicy : List String) : Option EKSConfig :=
  match (extract_params_from_kwargs kwargs).cluster_name,
        (extract_params_from_kwargs kwargs).env_name with
  | PyVal.str cn, PyVal.str en =>
      some { cluster_name := cn ++ "-" ++ en
           , default_capacity := 0
           , endpoint_access := "PRIVATE"
           , version := "V1_20"
           , nodegroups := create_nodegroups
           , addons := deploy_addons (extract_flags_from_kwargs kwargs) env
               (cn ++ "-" ++ en) lbPolicy }
  | _, _ => none

/-- The cluster-name default substitution in `Platform.__init__`
(src/deployment.py 30-32): "eks" unless `cluster_name` is in kwargs. -/
def Platform_cluster_name (kwargs : List (String × PyVal)) : PyVal :=
  match lookupKw kwargs CLUSTER_NAME with
  | some v => v
  | none => PyVal.str "eks"

/-- `Platform.__init__` (src/deployment.py 12-41): passes the (defaulted)
cluster name and the environment name on to `PlatformEKS`.  The network
stack it also creates carries no data any claim touches and is elided.
The Python default for `env_name` is "eks-env"; callers here pass it
explicitly. -/
def Platform_init (env : CdkEnvironment) (env_name : String)
    (kwargs : List (String × PyVal)) (lbPolicy : List String) :
    Option EKSConfig :=
  platformEKS env
    [(CLUSTER_NAME, Platform_cluster_name kwargs), (ENV, PyVal.str env_name)]
    lbPolicy

/-- The process environment variables read at synthesis time
(src/pipeline.py 68-69, src/app.py 16-17). -/
structure OsEnv where
  CDK_DEFAULT_ACCOUNT : String
  CDK_DEFAULT_REGION : String
deriving DecidableEq

/-- One pipeline element, in the order the pipeline declares them. -/
inductive PipelineAction where
  | source (action_name : String) (repo : String) (branch : String)
  | synth (synth_command : String)
  | deployStage (stage_id : String) (env : CdkEnvironment)
      (unit : Option EKSConfig)
  | manualApproval (action_name : String)
deriving DecidableEq

/-- `Pipeline.__init__` (src/pipeline.py 19-94): the GitHub source
action, the synth action, then `_add_pre_prod_stage` (a Platform stage
in the default account/region followed immediately by the manual
approval "ConfirmPreProdDeployment" at the next sequential run order) and
`_add_prod_stage` (a Platform stage in the default account with region
hardcoded to "eu-central-1", with no approval action after it). -/
def Pipeline_init (osenv : OsEnv) (lbPolicy : List String) :
    List PipelineAction :=
  [ PipelineAction.source "GitHub" "eks-platform" "main"
  , PipelineAction.synth "npx cdk synth"
  , PipelineAction.deployStage "Platform-PreProd"
      ⟨osenv.CDK_DEFAULT_ACCOUNT, osenv.CDK_DEFAULT_REGION⟩
      (Platform_init ⟨osenv.CDK_DEFAULT_ACCOUNT, osenv.CDK_DEFAULT_REGION⟩
        "pre-prod" [] lbPolicy)
  , PipelineAction.manualApproval "ConfirmPreProdDeployment"
  , PipelineAction.deployStage "Platform-Prod"
      ⟨osenv.CDK_DEFAULT_ACCOUNT, "eu-central-1"⟩
      (Platform_init ⟨osenv.CDK_DEFAULT_ACCOUNT, "eu-central-1"⟩
        "eks-env" [] lbPolicy) ]

/-- `app.py` (src/app.py 15-36): one Platform stage "Platform-Dev" in the
default environment with env_name "dev" and cluster_name "eks-test", and
the Pipeline.  The remote load-balancer policy document is an explicit
input. -/
def app_synth (osenv : OsEnv) (lbPolicy : List String) :
    Option EKSConfig × List PipelineAction :=
  ( Platform_init ⟨osenv.CDK_DEFAULT_ACCOUNT, osenv.CDK_DEFAULT_REGION⟩
      "dev" [(CLUSTER_NAME, PyVal.str "eks-test")] lbPolicy
  , Pipeline_init osenv lbPolicy )

/-- Split a character list into lines at newline characters. -/
def splitLinesAux : List Char → List Char → List (List Char)
  | [], cur => [cur.reverse]
  | c :: rest, cur =>
      if c = '\n' then cur.reverse :: splitLinesAux rest []
      else splitLinesAux rest (c :: cur)

/-- Parse a nonempty all-digit character list as a natural number
(the semantics of `String.toNat?`). -/
def natOfDigits (cs : List Char) : Option Nat :=
  if cs ≠ [] ∧ cs.all Char.isDigit then
    some (cs.foldl (fun n c => 10 * n + (c.toNat - 48)) 0)
  else none

/-- Parse a priority-expander `priorities` document of the shape the
ConfigMap uses: a line "N: " opens the priority class N, and each
following line "  - pat" adds the pattern pat to the open class.
Returns the classes, most recently opened first. -/
def parsePriorities (s : String) : List (Nat × List String) :=
  (splitLinesAux s.toList []).foldl
    (fun acc line =>
      match line with
      | ' ' :: ' ' :: '-' :: ' ' :: rest =>
          match acc with
          | [] => []
          | (n, pats) :: restAcc => (n, pats ++ [String.mk rest]) :: restAcc
      | _ =>
          match natOfDigits (line.takeWhile (fun c => c != ':')) with
          | some n => (n, []) :: acc
          | none => acc)
    []

/-- The priority value of the class containing the given pattern. -/
def priorityOfPattern (s : String) (pat : String) : Option Nat :=
  ((parsePriorities s).find? (fun e => e.2.contains pat)).map (fun e => e.1)

-- Recognizers and projections over add-ons.

def isSsmAgent : Addon → Bool
  | Addon.ssmAgent _ => true
  | _ => false

def isBastion : Addon → Bool
  | Addon.bastion _ _ => true
  | _ => false

def isClusterAutoscaler : Addon → Bool
  | Addon.clusterAutoscaler _ _ _ _ => true
  | _ => false

def isAwsLbController : Addon → Bool
  | Addon.awsLbController _ _ _ _ => true
  | _ => false

/-- The construct ids an add-on was explicitly `add_dependency`-ordered
after. -/
def addonDeps : Addon → List String
  | Addon.ssmAgent _ => []
  | Addon.bastion _ d => d
  | Addon.clusterAutoscaler _ _ _ d => d
  | Addon.awsLbController _ _ _ d => d

/-- The priorities documents of the autoscaler add-ons of a
configuration. -/
def autoscalerPriorities (cfg : EKSConfig) : List String :=
  cfg.addons.filterMap (fun a =>
    match a with
    | Addon.clusterAutoscaler _ pr _ _ => some pr
    | _ => none)

def hasClusterAutoscaler (cfg : EKSConfig) : Bool :=
  cfg.addons.any isClusterAutoscaler

def hasAwsLbController (cfg : EKSConfig) : Bool :=
  cfg.addons.any isAwsLbController

/-- The environments of the deployment stages of a pipeline, in order. -/
def deployStageEnvs (actions : List PipelineAction) : List CdkEnvironment :=
  actions.filterMap (fun a =>
    match a with
    | PipelineAction.deployStage _ e _ => some e
    | _ => none)

/-- The regions of the deployment stages of a pipeline, in order. -/
def stageRegions (actions : List PipelineAction) : List String :=
  (deployStageEnvs actions).map (fun e => e.region)

-- Sample concrete inputs shared by witnesses and counterexamples.

def sample_env : CdkEnvironment := ⟨"123456789012", "eu-west-1"⟩

def sample_kwargs : List (String × PyVal) :=
  [(CLUSTER_NAME, PyVal.str "eks-test"), (ENV, PyVal.str "dev")]

/-- The configuration `platformEKS` produces at the sample inputs (both
flags defaulted to true). -/
def sample_config : EKSConfig :=
  { cluster_name := "eks-test-dev"
  , default_capacity := 0
  , endpoint_access := "PRIVATE"
  , version := "V1_20"
  , nodegroups := create_nodegroups
  , addons := deploy_addons ⟨PyVal.bool true, PyVal.bool true⟩ sample_env
      "eks-test-dev" [] }

/-- Keyword arguments supplying the autoscaler flag as the boolean False
and no parameters (so both parameters default to their own names). -/
def sample_kwargs_no_ca : List (String × PyVal) :=
  [(DEPLOY_CLUSTER_AUTOSCALER, PyVal.bool false)]

/-- The configuration `platformEKS` produces at `sample_kwargs_no_ca`. -/
def sample_config_no_ca : EKSConfig :=
  { cluster_name := "cluster_name-env_name"
  , default_capacity := 0
  , endpoint_access := "PRIVATE"
  , version := "V1_20"
  , nodegroups := create_nodegroups
  , addons := deploy_addons ⟨PyVal.bool false, PyVal.bool true⟩ sample_env
      "cluster_name-env_name" [] }

/-- Keyword arguments supplying both flags as truthy non-boolean values
(the integer 1 and a nonempty string). -/
def sample_kwargs_truthy : List (String × PyVal) :=
  [ (DEPLOY_CLUSTER_AUTOSCALER, PyVal.int 1)
  , (DEPLOY_AWS_LB_CONTROLLER, PyVal.str "yes") ]

/-- The configuration `platformEKS` produces at `sample_kwargs_truthy`. -/
def sample_config_truthy : EKSConfig :=
  { cluster_name := "cluster_name-env_name"
  , default_capacity := 0
  , endpoint_access := "PRIVATE"
  , version := "V1_20"
  , nodegroups := create_nodegroups
  , addons := deploy_addons ⟨PyVal.int 1, PyVal.str "yes"⟩ sample_env
      "cluster_name-env_name" [] }

/-! ## Helper lemmas -/

/-- Destructuring `platformEKS`: a produced configuration always has the
three node groups and the add-on list produced by `deploy_addons` at the
extracted flags, with the bastion named after the produced cluster
name. -/
theorem platformEKS_fields (env : CdkEnvironment)
    (kwargs : List (String × PyVal)) (lb : List String) (cfg : EKSConfig)
    (h : platformEKS env kwargs lb = some cfg) :
    cfg.default_capacity = 0 ∧
    cfg.nodegroups = create_nodegroups ∧
    cfg.addons =
      deploy_addons (extract_flags_from_kwargs kwargs) env cfg.cluster_name
        lb := by
  unfold platformEKS at h
  split at h
  · injection h with h2
    subst h2
    exact ⟨rfl, rfl, rfl⟩
  · exact Option.noConfusion h

/-- The elements of a `deploy_addons` list, by cases on the two flags. -/
theorem mem_deploy_addons (f : Flags) (e : CdkEnvironment) (cn : String)
    (lb : List String) (a : Addon) (h : a ∈ deploy_addons f e cn lb) :
    a = deploy_ssm_agent ∨ a = deploy_bastion cn ∨
    (pyVal_is_True f.deploy_cluster_autoscaler = true ∧
      a = deploy_cluster_autoscaler e.region) ∨
    (pyVal_is_True f.deploy_alb_controller = true ∧
      a = deploy_aws_load_balancer_controller e.region lb) := by
  unfold deploy_addons at h
  by_cases h1 : pyVal_is_True f.deploy_cluster_autoscaler = true <;>
  by_cases h2 : pyVal_is_True f.deploy_alb_controller = true <;>
  simp [h1, h2] at h <;>
  tauto

/-- The agent daemon set is always the first declared add-on. -/
theorem deploy_addons_head (f : Flags) (e : CdkEnvironment) (cn : String)
    (lb : List String) :
    (deploy_addons f e cn lb).head? = some deploy_ssm_agent := rfl

/-- The autoscaler is in the add-on list exactly when its flag `is True`. -/
theorem deploy_addons_any_autoscaler (f : Flags) (e : CdkEnvironment)
    (cn : String) (lb : List String) :
    (deploy_addons f e cn lb).any isClusterAutoscaler =
      pyVal_is_True f.deploy_cluster_autoscaler := by
  unfold deploy_addons
  by_cases h1 : pyVal_is_True f.deploy_cluster_autoscaler = true <;>
  by_cases h2 : pyVal_is_True f.deploy_alb_controller = true <;>
  simp [h1, h2, isClusterAutoscaler, deploy_ssm_agent, deploy_bastion,
    deploy_cluster_autoscaler, deploy_aws_load_balancer_controller]

/-- The load-balancer controller is in the add-on list exactly when its
flag `is True`. -/
theorem deploy_addons_any_lb (f : Flags) (e : CdkEnvironment)
    (cn : String) (lb : List String) :
    (deploy_addons f e cn lb).any isAwsLbController =
      pyVal_is_True f.deploy_alb_controller := by
  unfold deploy_addons
  by_cases h1 : pyVal_is_True f.deploy_cluster_autoscaler = true <;>
  by_cases h2 : pyVal_is_True f.deploy_alb_controller = true <;>
  simp [h1, h2, isAwsLbController, deploy_ssm_agent, deploy_bastion,
    deploy_cluster_autoscaler, deploy_aws_load_balancer_controller]

theorem extract_flags_ca (kwargs : List (String × PyVal)) :
    (extract_flags_from_kwargs kwargs).deploy_cluster_autoscaler =
      (lookupKw kwargs DEPLOY_CLUSTER_AUTOSCALER).getD (PyVal.bool true) :=
  rfl

theorem extract_flags_alb (kwargs : List (String × PyVal)) :
    (extract_flags_from_kwargs kwargs).deploy_alb_controller =
      (lookupKw kwargs DEPLOY_AWS_LB_CONTROLLER).getD (PyVal.bool true) :=
  rfl

/-- Python identity with `True` fails for every value other than the
boolean `True` itself. -/
theorem pyVal_is_True_eq_false (v : PyVal) (h : v ≠ PyVal.bool true) :
    pyVal_is_True v = false := by
  cases v with
  | bool b =>
    cases b with
    | true => exact absurd rfl h
    | false => rfl
  | int n => rfl
  | str s => rfl

/-! ## Claims C1 and C2 -/

/-- C1, as stated, is false on the code: the priority-expander ConfigMap
data declared at src/eks/eks.py line 271 puts the pattern od* in priority
class 10 and spot* in class 20, not the other way round.  At the concrete
invocation (sample_env, sample_kwargs) the deployed autoscaler's
priorities document maps od* to 10, refuting "the priority class
containing od* is 20 and the one containing spot* is 10". -/
theorem claim_C1_counterexample :
    ¬ (∀ (env : CdkEnvironment) (kwargs : List (String × PyVal))
        (lb : List String) (cfg : EKSConfig),
        platformEKS env kwargs lb = some cfg →
        ∀ pr ∈ autoscalerPriorities cfg,
          priorityOfPattern pr "od*" = some 20 ∧
          priorityOfPattern pr "spot*" = some 10) := by
  intro hclaim
  have h := hclaim sample_env sample_kwargs [] sample_config rfl
    CA_PRIORITIES (by decide)
  exact absurd h.1 (by decide)

/-- C1 (amended): whenever the autoscaler add-on is deployed, the
priority-expander configuration it declares assigns the pattern matching
on-demand pools (od*) priority 10 and the pattern matching spot pools
(spot*) priority 20 - so, the expander preferring the higher value, spot
pools are preferred over on-demand pools. -/
theorem claim_C1_amended (env : CdkEnvironment)
    (kwargs : List (String × PyVal)) (lb : List String) (cfg : EKSConfig)
    (h : platformEKS env kwargs lb = some cfg) :
    ∀ pr ∈ autoscalerPriorities cfg,
      priorityOfPattern pr "od*" = some 10 ∧
      priorityOfPattern pr "spot*" = some 20 := by
  intro pr hpr
  obtain ⟨-, -, haddons⟩ := platformEKS_fields env kwargs lb cfg h
  unfold autoscalerPriorities at hpr
  rw [haddons] at hpr
  rcases List.mem_filterMap.mp hpr with ⟨a, ha, hpa⟩
  rcases mem_deploy_addons _ _ _ _ a ha with h1 | h1 | ⟨-, h1⟩ | ⟨-, h1⟩ <;>
    subst h1
  · exact absurd hpa (by simp [deploy_ssm_agent])
  · exact absurd hpa (by simp [deploy_bastion])
  · simp only [deploy_cluster_autoscaler, Option.some.injEq] at hpa
    subst hpa
    exact ⟨by decide, by decide⟩
  · exact absurd hpa (by simp [deploy_aws_load_balancer_controller])

/-- C1 witness: the amended theorem applied at the sample invocation. -/
theorem claim_C1_witness :
    platformEKS sample_env sample_kwargs [] = some sample_config ∧
    CA_PRIORITIES ∈ autoscalerPriorities sample_config ∧
    (priorityOfPattern CA_PRIORITIES "od*" = some 10 ∧
      priorityOfPattern CA_PRIORITIES "spot*" = some 20) :=
  ⟨rfl, by decide,
    claim_C1_amended sample_env sample_kwargs [] sample_config rfl
      CA_PRIORITIES (by decide)⟩

/-- C2, as stated, is false on the code: the load-balancer controller's
chart carries an explicit dependency only on its own service account
(src/eks/eks.py line 348), not on the agent daemon set, so not every
other deployed add-on is ordered after the agent daemon set.  Refuted at
the sample invocation, where the deployed load-balancer controller's
dependency set does not contain "SSMAgentManifest". -/
theorem claim_C2_counterexample :
    ¬ (∀ (env : CdkEnvironment) (kwargs : List (String × PyVal))
        (lb : List String) (cfg : EKSConfig),
        platformEKS env kwargs lb = some cfg →
        cfg.addons.head? = some deploy_ssm_agent ∧
        ∀ a ∈ cfg.addons, isSsmAgent a = false →
          "SSMAgentManifest" ∈ addonDeps a) := by
  intro hclaim
  have h := (hclaim sample_env sample_kwargs [] sample_config rfl).2
    (deploy_aws_load_balancer_controller sample_env.region []) (by decide)
    (by decide)
  exact absurd h (by decide)

/-- C2 (amended): in every produced configuration the agent daemon set is
declared first among the add-ons; the autoscaler and the bastion each
carry an explicit ordering dependency on the agent daemon set (in
particular the bastion's dependency set always includes it); the
load-balancer controller's chart instead depends exactly on its own
service account. -/
theorem claim_C2_amended (env : CdkEnvironment)
    (kwargs : List (String × PyVal)) (lb : List String) (cfg : EKSConfig)
    (h : platformEKS env kwargs lb = some cfg) :
    cfg.addons.head? = some deploy_ssm_agent ∧
    (∀ a ∈ cfg.addons,
      isClusterAutoscaler a = true ∨ isBastion a = true →
      "SSMAgentManifest" ∈ addonDeps a) ∧
    (∀ a ∈ cfg.addons, isAwsLbController a = true →
      addonDeps a = [AWS_LB_CONTROLLER]) := by
  obtain ⟨-, -, haddons⟩ := platformEKS_fields env kwargs lb cfg h
  refine ⟨?_, ?_, ?_⟩
  · rw [haddons]
    exact deploy_addons_head _ _ _ _
  · intro a ha hkind
    rw [haddons] at ha
    rcases mem_deploy_addons _ _ _ _ a ha with h1 | h1 | ⟨-, h1⟩ | ⟨-, h1⟩ <;>
      subst h1
    · simp [deploy_ssm_agent, isClusterAutoscaler, isBastion] at hkind
    · simp [deploy_bastion, addonDeps]
    · simp [deploy_cluster_autoscaler, addonDeps]
    · simp [deploy_aws_load_balancer_controller, isClusterAutoscaler,
        isBastion] at hkind
  · intro a ha hkind
    rw [haddons] at ha
    rcases mem_deploy_addons _ _ _ _ a ha with h1 | h1 | ⟨-, h1⟩ | ⟨-, h1⟩ <;>
      subst h1
    · simp [deploy_ssm_agent, isAwsLbController] at hkind
    · simp [deploy_bastion, isAwsLbController] at hkind
    · simp [deploy_cluster_autoscaler, isAwsLbController] at hkind
    · simp [deploy_aws_load_balancer_controller, addonDeps,
        AWS_LB_CONTROLLER]

/-- C2 witness: the amended theorem applied at the sample invocation. -/
theorem claim_C2_witness :
    platformEKS sample_env sample_kwargs [] = some sample_config ∧
    sample_config.addons.head? = some deploy_ssm_agent ∧
    "SSMAgentManifest" ∈ addonDeps (deploy_bastion "eks-test-dev") ∧
    addonDeps (deploy_aws_load_balancer_controller sample_env.region []) =
      [AWS_LB_CONTROLLER] := by
  have h := claim_C2_amended sample_env sample_kwargs [] sample_config rfl
  exact ⟨rfl, h.1,
    h.2.1 (deploy_bastion "eks-test-dev") (by decide) (by decide),
    h.2.2 (deploy_aws_load_balancer_controller sample_env.region [])
      (by decide) (by decide)⟩

/-! ## Claims C3 to C6 -/

/-- C3 (confirmed): a Platform invocation with cluster name "eks-test"
and environment name "dev" produces a cluster named "eks-test-dev" with
zero default capacity and exactly the three node pools "od-default-ng",
"spot-default-ng" and "od-graviton-ng", for any environment and any
fetched policy document. -/
theorem claim_C3_thm (env : CdkEnvironment) (lb : List String) :
    (Platform_init env "dev" [(CLUSTER_NAME, PyVal.str "eks-test")] lb).map
      (fun cfg =>
        (cfg.cluster_name, cfg.default_capacity,
          cfg.nodegroups.map (fun ng => ng.nodegroup_name))) =
      some ("eks-test-dev", 0,
        ["od-default-ng", "spot-default-ng", "od-graviton-ng"]) := rfl

/-- C4 (confirmed): the pipeline declares, in this order, the source
trigger, the build/synthesis step, the pre-production deployment, the
manual approval immediately after it, and finally the production
deployment; the production deployment is the last element, so no
approval action follows it. -/
theorem claim_C4_thm (osenv : OsEnv) (lb : List String) :
    Pipeline_init osenv lb =
      [ PipelineAction.source "GitHub" "eks-platform" "main"
      , PipelineAction.synth "npx cdk synth"
      , PipelineAction.deployStage "Platform-PreProd"
          ⟨osenv.CDK_DEFAULT_ACCOUNT, osenv.CDK_DEFAULT_REGION⟩
          (Platform_init
            ⟨osenv.CDK_DEFAULT_ACCOUNT, osenv.CDK_DEFAULT_REGION⟩
            "pre-prod" [] lb)
      , PipelineAction.manualApproval "ConfirmPreProdDeployment"
      , PipelineAction.deployStage "Platform-Prod"
          ⟨osenv.CDK_DEFAULT_ACCOUNT, "eu-central-1"⟩
          (Platform_init ⟨osenv.CDK_DEFAULT_ACCOUNT, "eu-central-1"⟩
            "eks-env" [] lb) ] := rfl

/-- C5 (confirmed): when the autoscaler flag is supplied as the boolean
False no autoscaler add-on (which bundles its service account,
priority-expander ConfigMap and chart) appears in the produced
configuration; when it is supplied as the boolean True or omitted (the
default is True) the autoscaler add-on is present. -/
theorem claim_C5_thm (env : CdkEnvironment)
    (kwargs : List (String × PyVal)) (lb : List String) (cfg : EKSConfig)
    (h : platformEKS env kwargs lb = some cfg) :
    (lookupKw kwargs DEPLOY_CLUSTER_AUTOSCALER = some (PyVal.bool false) →
      hasClusterAutoscaler cfg = false) ∧
    (lookupKw kwargs DEPLOY_CLUSTER_AUTOSCALER = some (PyVal.bool true) ∨
      lookupKw kwargs DEPLOY_CLUSTER_AUTOSCALER = none →
      hasClusterAutoscaler cfg = true) := by
  obtain ⟨-, -, haddons⟩ := platformEKS_fields env kwargs lb cfg h
  unfold hasClusterAutoscaler
  rw [haddons, deploy_addons_any_autoscaler, extract_flags_ca]
  constructor
  · intro hfalse
    rw [hfalse]
    rfl
  · rintro (h' | h') <;> rw [h'] <;> rfl

/-- C5 witness: the theorem applied at the sample invocation (flag
omitted, so the autoscaler is present) and at an invocation with the
flag supplied as False (so it is absent). -/
theorem claim_C5_witness :
    (platformEKS sample_env sample_kwargs [] = some sample_config ∧
      lookupKw sample_kwargs DEPLOY_CLUSTER_AUTOSCALER = none ∧
      hasClusterAutoscaler sample_config = true) ∧
    (platformEKS sample_env sample_kwargs_no_ca [] =
        some sample_config_no_ca ∧
      lookupKw sample_kwargs_no_ca DEPLOY_CLUSTER_AUTOSCALER =
        some (PyVal.bool false) ∧
      hasClusterAutoscaler sample_config_no_ca = false) :=
  ⟨⟨rfl, rfl,
      (claim_C5_thm sample_env sample_kwargs [] sample_config rfl).2
        (Or.inr rfl)⟩,
    ⟨rfl, rfl,
      (claim_C5_thm sample_env sample_kwargs_no_ca []
        sample_config_no_ca rfl).1 rfl⟩⟩

/-- C6, as stated, is false on the code: both stage regions are taken as
claimed (default region for pre-prod, hardcoded "eu-central-1" for
prod), but when the default-region environment variable itself is
"eu-central-1" the two stages' regions coincide, so they do not differ
for every synthesis. -/
theorem claim_C6_counterexample :
    stageRegions (Pipeline_init ⟨"123456789012", "eu-central-1"⟩ []) =
      ["eu-central-1", "eu-central-1"] ∧
    ¬ (stageRegions
        (Pipeline_init ⟨"123456789012", "eu-central-1"⟩ [])).Nodup :=
  ⟨rfl, by decide⟩

/-- C6 (amended): the pre-production stage's region is the default-region
environment variable and the production stage's region is the hardcoded
"eu-central-1"; the two stages' regions differ whenever the default
region is not "eu-central-1" (and only then). -/
theorem claim_C6_amended (osenv : OsEnv) (lb : List String) :
    stageRegions (Pipeline_init osenv lb) =
      [osenv.CDK_DEFAULT_REGION, "eu-central-1"] ∧
    (osenv.CDK_DEFAULT_REGION ≠ "eu-central-1" →
      (stageRegions (Pipeline_init osenv lb)).Nodup) := by
  refine ⟨rfl, fun hne => ?_⟩
  have hsr : stageRegions (Pipeline_init osenv lb) =
      [osenv.CDK_DEFAULT_REGION, "eu-central-1"] := rfl
  rw [hsr]
  simp [hne]

/-- C6 witness: the amended theorem applied at a default region distinct
from "eu-central-1". -/
theorem claim_C6_witness :
    ("eu-west-1" : String) ≠ "eu-central-1" ∧
    stageRegions (Pipeline_init ⟨"123456789012", "eu-west-1"⟩ []) =
      ["eu-west-1", "eu-central-1"] ∧
    (stageRegions (Pipeline_init ⟨"123456789012", "eu-west-1"⟩ [])).Nodup :=
  ⟨by decide,
    (claim_C6_amended ⟨"123456789012", "eu-west-1"⟩ []).1,
    (claim_C6_amended ⟨"123456789012", "eu-west-1"⟩ []).2 (by decide)⟩

/-! ## Claims C7 to C10 -/

/-- C7 (confirmed): the declaration assembly is a deterministic function
of its inputs - the process environment values and the response for the
remote permission-policy document (the one fetch, here an explicit
input).  Two runs of the whole app synthesis with identical inputs
produce identical declared configurations. -/
theorem claim_C7_thm (o1 o2 : OsEnv) (l1 l2 : List String)
    (ho : o1 = o2) (hl : l1 = l2) :
    app_synth o1 l1 = app_synth o2 l2 := by
  rw [ho, hl]

/-- C7 witness: the theorem applied at a concrete environment and policy
document. -/
theorem claim_C7_witness :
    (⟨"123456789012", "eu-west-1"⟩ : OsEnv) =
      ⟨"123456789012", "eu-west-1"⟩ ∧
    app_synth ⟨"123456789012", "eu-west-1"⟩ [] =
      app_synth ⟨"123456789012", "eu-west-1"⟩ [] :=
  ⟨rfl,
    claim_C7_thm ⟨"123456789012", "eu-west-1"⟩ ⟨"123456789012", "eu-west-1"⟩
      [] [] rfl rfl⟩

/-- C8 (confirmed): when no cluster name is provided to the Platform
composer, the cluster name passed to the cluster builder is "eks"; when
one is provided, it is passed through unchanged - and `Platform_init`
passes exactly this defaulted value on to `platformEKS`. -/
theorem claim_C8_thm (env : CdkEnvironment) (env_name : String)
    (kwargs : List (String × PyVal)) (lb : List String) :
    (lookupKw kwargs CLUSTER_NAME = none →
      Platform_cluster_name kwargs = PyVal.str "eks") ∧
    (∀ v, lookupKw kwargs CLUSTER_NAME = some v →
      Platform_cluster_name kwargs = v) ∧
    Platform_init env env_name kwargs lb =
      platformEKS env
        [(CLUSTER_NAME, Platform_cluster_name kwargs),
          (ENV, PyVal.str env_name)] lb := by
  refine ⟨?_, ?_, rfl⟩
  · intro h
    unfold Platform_cluster_name
    rw [h]
  · intro v h
    unfold Platform_cluster_name
    rw [h]

/-- C8 witness: the theorem applied with the cluster name absent (empty
kwargs) and with the cluster name "eks-test" provided. -/
theorem claim_C8_witness :
    (lookupKw [] CLUSTER_NAME = none ∧
      Platform_cluster_name [] = PyVal.str "eks") ∧
    (lookupKw [(CLUSTER_NAME, PyVal.str "eks-test")] CLUSTER_NAME =
        some (PyVal.str "eks-test") ∧
      Platform_cluster_name [(CLUSTER_NAME, PyVal.str "eks-test")] =
        PyVal.str "eks-test") :=
  ⟨⟨rfl, (claim_C8_thm sample_env "dev" [] []).1 rfl⟩,
    ⟨rfl,
      (claim_C8_thm sample_env "dev"
        [(CLUSTER_NAME, PyVal.str "eks-test")] []).2.1 _ rfl⟩⟩

/-- C9 (confirmed): in every produced configuration the spot node pool
declares four distinct instance shapes and the on-demand node pool one,
so the spot pool's instance-shape set has cardinality greater than or
equal to the on-demand pool's. -/
theorem claim_C9_thm (env : CdkEnvironment)
    (kwargs : List (String × PyVal)) (lb : List String) (cfg : EKSConfig)
    (h : platformEKS env kwargs lb = some cfg) :
    ∃ spot od,
      cfg.nodegroups.find?
        (fun ng => ng.nodegroup_name == "spot-default-ng") = some spot ∧
      cfg.nodegroups.find?
        (fun ng => ng.nodegroup_name == "od-default-ng") = some od ∧
      spot.instance_types.dedup.length = 4 ∧
      od.instance_types.dedup.length = 1 ∧
      od.instance_types.dedup.length ≤ spot.instance_types.dedup.length := by
  obtain ⟨-, hng, -⟩ := platformEKS_fields env kwargs lb cfg h
  refine ⟨spot_default_nodegroup, od_default_nodegroup, ?_, ?_,
    by decide, by decide, by decide⟩
  · rw [hng]
    decide
  · rw [hng]
    decide

/-- C9 witness: the theorem applied at the sample invocation. -/
theorem claim_C9_witness :
    platformEKS sample_env sample_kwargs [] = some sample_config ∧
    ∃ spot od,
      sample_config.nodegroups.find?
        (fun ng => ng.nodegroup_name == "spot-default-ng") = some spot ∧
      sample_config.nodegroups.find?
        (fun ng => ng.nodegroup_name == "od-default-ng") = some od ∧
      spot.instance_types.dedup.length = 4 ∧
      od.instance_types.dedup.length = 1 ∧
      od.instance_types.dedup.length ≤ spot.instance_types.dedup.length :=
  ⟨rfl, claim_C9_thm sample_env sample_kwargs [] sample_config rfl⟩

/-- C10 (confirmed): the flags are compared to True by Python identity,
so a supplied flag value that is truthy but not the boolean True (for
example the integer 1 or a nonempty string) leaves the corresponding
add-on undeployed, exactly as if the flag were false. -/
theorem claim_C10_thm (env : CdkEnvironment)
    (kwargs : List (String × PyVal)) (lb : List String) (cfg : EKSConfig)
    (h : platformEKS env kwargs lb = some cfg) :
    (∀ v, lookupKw kwargs DEPLOY_CLUSTER_AUTOSCALER = some v →
      pyTruthy v = true → v ≠ PyVal.bool true →
      hasClusterAutoscaler cfg = false) ∧
    (∀ v, lookupKw kwargs DEPLOY_AWS_LB_CONTROLLER = some v →
      pyTruthy v = true → v ≠ PyVal.bool true →
      hasAwsLbController cfg = false) := by
  obtain ⟨-, -, haddons⟩ := platformEKS_fields env kwargs lb cfg h
  constructor
  · intro v hv htr hne
    unfold hasClusterAutoscaler
    rw [haddons, deploy_addons_any_autoscaler, extract_flags_ca, hv,
      Option.getD_some]
    exact pyVal_is_True_eq_false v hne
  · intro v hv htr hne
    unfold hasAwsLbController
    rw [haddons, deploy_addons_any_lb, extract_flags_alb, hv,
      Option.getD_some]
    exact pyVal_is_True_eq_false v hne

/-- C10 witness: the theorem applied with the autoscaler flag supplied
as the integer 1 and the load-balancer flag as the string "yes": both
values are truthy, yet neither add-on is deployed. -/
theorem claim_C10_witness :
    platformEKS sample_env sample_kwargs_truthy [] =
      some sample_config_truthy ∧
    pyTruthy (PyVal.int 1) = true ∧ PyVal.int 1 ≠ PyVal.bool true ∧
    pyTruthy (PyVal.str "yes") = true ∧
    PyVal.str "yes" ≠ PyVal.bool true ∧
    hasClusterAutoscaler sample_config_truthy = false ∧
    hasAwsLbController sample_config_truthy = false := by
  have h := claim_C10_thm sample_env sample_kwargs_truthy []
    sample_config_truthy rfl
  exact ⟨rfl, by decide, by decide, by decide, by decide,
    h.1 (PyVal.int 1) rfl (by decide) (by decide),
    h.2 (PyVal.str "yes") rfl (by decide) (by decide)⟩
